import Mathlib

set_option maxHeartbeats 1000000

/-!
Verification of the gisquick-server session/identity resolution subsystem.

The definitions below are a shallow embedding of the Go sources:
 - `internal/domain` user projection (AccountToUser),
 - `internal/server/auth` HTTP login handler (handleLogin),
 - `internal/infrastructure/postgres` accounts repository (GetByUsername,
   GetByEmail),
 - the auth service (Authenticate, GetSessionInfo, GetUser, LogoutUser).

External collaborators (bcrypt password verification, base64 decoding, the
redis-backed session store, the ttlcache contents at the time of a call) are
passed in as parameters, mirroring their interface contracts.  Side effects
(store reads and deletes, cookies written, repository queries issued by the
cache loader, cache insertions) are returned explicitly in an `Effects`
record, and the echo request context used for per-request memoization is an
explicit `Ctx` value threaded through the calls.
-/

namespace Gisquick

/-- domain.Profile (a free-form map in the source); modelled as an optional
association list so that the nil map is representable. -/
abbrev Profile := Option (List (String × String))

/-- domain.Account: the durable account record.  The password field holds the
verification material; hashing/verification is an external collaborator.
Timestamps (created, confirmed, last-login) are omitted: no claim under
verification mentions them. -/
structure Account where
  username : String
  email : String
  password : String
  firstName : String
  lastName : String
  active : Bool
  superuser : Bool
  profile : Profile
  deriving Repr, DecidableEq

/-- domain.User (src/unnamed/part_000, lines 3-12). -/
structure User where
  username : String
  email : String
  firstName : String
  lastName : String
  isSuperuser : Bool
  isAuthenticated : Bool
  isGuest : Bool
  profile : Profile
  deriving Repr, DecidableEq

/-- The Go zero value of domain.User (var user domain.User). -/
def zeroUser : User :=
  { username := "", email := "", firstName := "", lastName := "",
    isSuperuser := false, isAuthenticated := false, isGuest := false,
    profile := none }

/-- domain.AccountToUser (src/unnamed/part_000, lines 14-25). -/
def AccountToUser (account : Account) : User :=
  { username := account.username
    email := account.email
    firstName := account.firstName
    lastName := account.lastName
    isSuperuser := account.superuser
    isGuest := false
    isAuthenticated := true
    profile := account.profile }

/-- auth.AnonymousUser (src/unnamed/part_001, line 24):
domain.User{IsGuest: true} - every other field is the zero value. -/
def AnonymousUser : User := { zeroUser with isGuest := true }

/-- The Go error values reachable from the auth flow, as one sum type:
`accountNotFound` is domain.ErrAccountNotFound (accounts repository),
`ambiguousEmail` the "More than 1 accounts with email address" error of
GetByEmail, `userNotFound` auth.ErrUserNotFound, `invalidPassword`
auth.ErrInvalidPassword, `storeError` a transport/availability failure of the
session store, `decodeError` a base64 decoding failure, and
`wrappedSession e` is fmt.Errorf("auth: get session user: %w", e). -/
inductive AuthError
  | accountNotFound
  | ambiguousEmail
  | userNotFound
  | invalidPassword
  | storeError
  | decodeError
  | wrappedSession (e : AuthError)
  deriving Repr, DecidableEq

/-- Both not-found errors signal "user not found" in the sense of spec
section 4.4 (the NotFound taxonomy class of section 7); neither reveals
whether the account exists but is inactive. -/
def AuthError.isNotFoundSignal : AuthError → Bool
  | .accountNotFound => true
  | .userNotFound => true
  | _ => false

/-- domain.AccountsRepository, restricted to the read operations the auth
flow uses. -/
structure AccountsSource where
  getByUsername : String → Except AuthError Account
  getByEmail : String → Except AuthError Account

/-- postgres.AccountsRepository.GetByUsername (accounts_repository.go,
lines 59-62): db.Get on "SELECT ... WHERE username=$1" yields the first
matching row; sql.ErrNoRows maps to domain.ErrAccountNotFound. -/
def GetByUsername (db : List Account) (username : String) :
    Except AuthError Account :=
  match db.find? (fun a => a.username == username) with
  | some a => .ok a
  | none => .error .accountNotFound

/-- postgres.AccountsRepository.GetByEmail (accounts_repository.go,
lines 64-77): collect every row matching the email (LIKE with a literal
pattern is equality); zero rows is not-found, more than one row is the
ambiguity error, exactly one row is returned. -/
def GetByEmail (db : List Account) (email : String) :
    Except AuthError Account :=
  if (db.filter (fun a => a.email == email)).length = 0 then
    .error .accountNotFound
  else if (db.filter (fun a => a.email == email)).length > 1 then
    .error .ambiguousEmail
  else
    match (db.filter (fun a => a.email == email)).head? with
    | some a => .ok a
    | none => .error .accountNotFound

/-- The postgres repository over a database state (list of account rows). -/
def postgresRepo (db : List Account) : AccountsSource :=
  { getByUsername := GetByUsername db, getByEmail := GetByEmail db }

/-- The lookup step of AuthService.Authenticate (src/unnamed/part_001,
lines 192-196): by email when the login contains an at-sign, by username
otherwise. -/
def lookupAccount (accounts : AccountsSource) (login : String) :
    Except AuthError Account :=
  if login.data.contains '@' then accounts.getByEmail login
  else accounts.getByUsername login

/-- AuthService.Authenticate (src/unnamed/part_001, lines 189-207).
domain.Account.CheckPassword is not part of the sources under verification
(password verification is an external collaborator per the spec), so it is
passed in as `checkPassword`. -/
def Authenticate (accounts : AccountsSource)
    (checkPassword : Account → String → Bool)
    (login password : String) : Except AuthError Account :=
  match lookupAccount accounts login with
  | .error e => .error e
  | .ok account =>
    if account.active = false then .error .userNotFound
    else if checkPassword account password = false then .error .invalidPassword
    else .ok account

/-- auth.SessionInfo (src/unnamed/part_001, lines 31-34). -/
structure SessionInfo where
  ID : String
  Username : String
  deriving Repr, DecidableEq

/-- The outcome of SessionStore.Get: found data, the ErrInvalidSession
signal (redis.Nil: not found or expired), or a transport failure. -/
inductive StoreResp
  | found (data : String)
  | notFound
  | failure
  deriving Repr, DecidableEq

/-- The durable session store, viewed at the time of a call. -/
abbrev Store := String → StoreResp

/-- The request data the auth flow reads: the Authorization header (empty
string when absent, as Header.Get returns) and the gq_session cookie. -/
structure Request where
  authHeader : String
  cookie : Option String

/-- The echo request context keys "session" and "user".  A nil stored under
"session" fails the SessionInfo type assertion on re-read exactly like an
absent key, so a single Option models both states. -/
structure Ctx where
  sessionMemo : Option SessionInfo
  userMemo : Option User
  deriving Repr, DecidableEq

/-- An http.Cookie written via http.SetCookie, restricted to the attributes
the source sets. -/
structure SetCookie where
  path : String
  name : String
  value : String
  maxAge : Int
  httpOnly : Bool
  sameSiteLax : Bool
  deriving Repr, DecidableEq

/-- The observable side effects of one call: session-store reads and deletes,
response cookies written, GetByUsername queries issued by the identity-cache
loader, and insertions into the two caches. -/
structure Effects where
  storeGets : List String
  storeDels : List String
  cookiesSet : List SetCookie
  accountQueries : List String
  basicCacheSets : List (String × User)
  cacheSets : List (String × User)
  deriving Repr, DecidableEq

def noEffects : Effects := ⟨[], [], [], [], [], []⟩

def Effects.append (a b : Effects) : Effects :=
  ⟨a.storeGets ++ b.storeGets, a.storeDels ++ b.storeDels,
   a.cookiesSet ++ b.cookiesSet, a.accountQueries ++ b.accountQueries,
   a.basicCacheSets ++ b.basicCacheSets, a.cacheSets ++ b.cacheSets⟩

/-- The immediately-expiring empty cookie written by LogoutUser
(src/unnamed/part_001, lines 255-262). -/
def logoutCookie : SetCookie :=
  { path := "/", name := "gq_session", value := "", maxAge := -1,
    httpOnly := true, sameSiteLax := true }

/-- AuthService.LogoutUser (src/unnamed/part_001, lines 248-263):
best-effort deletion of the session named by the request cookie, then
overwriting the cookie with `logoutCookie`. -/
def LogoutUser (req : Request) : Effects :=
  { noEffects with
    storeDels := match req.cookie with | some v => [v] | none => []
    cookiesSet := [logoutCookie] }

/-- AuthService.GetSessionInfo (src/unnamed/part_001, lines 116-142).  The
result is the Go pair (session or nil, error or nil).  The "not found"
store response triggers LogoutUser and then c.Set("session", nil), which
leaves the memo in the none state. -/
def GetSessionInfo (store : Store) (req : Request) (ctx : Ctx) :
    (Option SessionInfo × Option AuthError) × Ctx × Effects :=
  match ctx.sessionMemo with
  | some si => ((some si, none), ctx, noEffects)
  | none =>
    if req.cookie.getD "" = "" then
      ((none, none), ctx, noEffects)
    else
      match store (req.cookie.getD "") with
      | .found data =>
        ((some ⟨req.cookie.getD "", data⟩, none),
          { ctx with sessionMemo := some ⟨req.cookie.getD "", data⟩ },
          { noEffects with storeGets := [req.cookie.getD ""] })
      | .notFound =>
        ((none, none), ctx,
          { LogoutUser req with storeGets := [req.cookie.getD ""] })
      | .failure =>
        ((none, some .storeError), ctx,
          { noEffects with storeGets := [req.cookie.getD ""] })

/-- A view of a ttlcache instance at the moment of a call: an absent or
expired entry is none. -/
abbrev UserCache := String → Option User

/-- cache.Get on the identity cache: the loader registered in NewAuthService
(src/unnamed/part_001, lines 85-95) runs on a miss, querying GetByUsername
and storing the projected user; a repository error stores nothing and the
lookup yields nil. -/
def cacheGetLoaded (cache : UserCache) (accounts : AccountsSource)
    (username : String) : Option User × Effects :=
  match cache username with
  | some u => (some u, noEffects)
  | none =>
    match accounts.getByUsername username with
    | .error _ => (none, { noEffects with accountQueries := [username] })
    | .ok account =>
      let u := AccountToUser account
      (some u,
        { noEffects with accountQueries := [username],
                         cacheSets := [(username, u)] })

/-- strings.SplitN(s, ":", 2) over the character list: split at the first
colon only; a string without a colon yields a one-element list. -/
def splitN2 : List Char → List (List Char)
  | [] => [[]]
  | c :: rest =>
    if c = ':' then [[], rest]
    else
      match splitN2 rest with
      | [x] => [c :: x]
      | x :: xs => (c :: x) :: xs
      | [] => [[c]]

def splitN2S (s : String) : List String :=
  (splitN2 s.data).map (fun cs => String.mk cs)

/-- The AuthService state GetUser reads: the session store, the accounts
repository, password verification and base64 decoding (external
collaborators), and the contents of the two ttl caches. -/
structure AuthDeps where
  store : Store
  accounts : AccountsSource
  checkPassword : Account → String → Bool
  decode64 : String → Option String
  cache : UserCache
  basicAuthCache : UserCache

/-- The Basic-Auth branch of AuthService.GetUser (src/unnamed/part_001,
lines 150-170, plus the shared c.Set("user", user) on line 185): credential
cache lookup; on a miss the header must be longer than len("basic")+1 with a
case-insensitive "basic" scheme, its payload must base64-decode, and the
decoded payload is SplitN on ":" with limit 2; only a two-part split
authenticates - otherwise the zero-value user falls through with no error. -/
def basicPath (bcache : UserCache) (decode64 : String → Option String)
    (accounts : AccountsSource) (checkPw : Account → String → Bool)
    (auth : String) (ctx : Ctx) :
    (User × Option AuthError) × Ctx × Effects :=
  match bcache auth with
  | some u => ((u, none), { ctx with userMemo := some u }, noEffects)
  | none =>
    if 6 < auth.length ∧ (auth.data.take 5).map Char.toLower = "basic".data then
      match decode64 (String.mk (auth.data.drop 6)) with
      | none => ((AnonymousUser, some .decodeError), ctx, noEffects)
      | some payload =>
        match splitN2S payload with
        | [u, p] =>
          match Authenticate accounts checkPw u p with
          | .error e => ((AnonymousUser, some e), ctx, noEffects)
          | .ok account =>
            let usr := AccountToUser account
            ((usr, none), { ctx with userMemo := some usr },
              { noEffects with basicCacheSets := [(auth, usr)] })
        | _ => ((zeroUser, none), { ctx with userMemo := some zeroUser },
                 noEffects)
    else ((zeroUser, none), { ctx with userMemo := some zeroUser }, noEffects)

/-- The cookie/session branch of AuthService.GetUser (src/unnamed/part_001,
lines 171-184, plus the shared c.Set("user", user) on line 185): resolve the
session, then look the session username up in the loader-backed identity
cache; a session error is wrapped and returned with AnonymousUser, while no
session or a failed cache load return AnonymousUser with a nil error. -/
def cookiePath (store : Store) (cache : UserCache)
    (accounts : AccountsSource) (req : Request) (ctx : Ctx) :
    (User × Option AuthError) × Ctx × Effects :=
  match GetSessionInfo store req ctx with
  | ((_, some e), ctx', eff) =>
    ((AnonymousUser, some (.wrappedSession e)), ctx', eff)
  | ((none, none), ctx', eff) => ((AnonymousUser, none), ctx', eff)
  | ((some si, none), ctx', eff) =>
    match cacheGetLoaded cache accounts si.Username with
    | (none, eff2) => ((AnonymousUser, none), ctx', eff.append eff2)
    | (some u, eff2) =>
      ((u, none), { ctx' with userMemo := some u }, eff.append eff2)

/-- AuthService.GetUser (src/unnamed/part_001, lines 144-187): the memoized
user short-circuits; otherwise a non-empty Authorization header selects the
Basic-Auth branch and an empty one the cookie/session branch. -/
def GetUser (d : AuthDeps) (req : Request) (ctx : Ctx) :
    (User × Option AuthError) × Ctx × Effects :=
  match ctx.userMemo with
  | some u => ((u, none), ctx, noEffects)
  | none =>
    if req.authHeader ≠ "" then
      basicPath d.basicAuthCache d.decode64 d.accounts d.checkPassword
        req.authHeader ctx
    else cookiePath d.store d.cache d.accounts req ctx

/-- The response of the login HTTP handler, restricted to status and
message/body. -/
inductive LoginResponse
  | badRequest (msg : String)
  | unauthorized (msg : String)
  | ok (user : User)
  | serverError
  deriving Repr, DecidableEq

/-- Server.handleLogin (internal/server/auth.go, lines 12-43): binding and
required-field validation, Authenticate with every failure collapsed to one
generic 401 message, session creation (outcome passed in as `loginUser`),
projection to a user and a profile fill-in when the account has none. -/
def handleLogin (accounts : AccountsSource)
    (checkPw : Account → String → Bool)
    (loginUser : Account → Option AuthError)
    (getUserProfile : User → Profile)
    (username password : String) : LoginResponse :=
  if username = "" ∨ password = "" then .badRequest "validation error"
  else
    match Authenticate accounts checkPw username password with
    | .error _ => .unauthorized "Please provide valid credentials"
    | .ok account =>
      match loginUser account with
      | some _ => .serverError
      | none =>
        let user := AccountToUser account
        let user :=
          if user.profile = none then
            { user with profile := getUserProfile user }
          else user
        .ok user

/-! ## Test fixtures -/

/-- A concrete active account used to instantiate theorems with hypotheses. -/
def aliceAccount : Account :=
  { username := "alice", email := "alice@x.com", password := "s3cret",
    firstName := "Alice", lastName := "A", active := true, superuser := false,
    profile := none }

/-- An inactive account. -/
def bobAccount : Account :=
  { username := "bob", email := "bob@x.com", password := "hunter2",
    firstName := "Bob", lastName := "B", active := false, superuser := false,
    profile := none }

/-- A concrete stand-in for the external password verifier. -/
def pwEq : Account → String → Bool := fun a p => a.password == p

/-! ## Claim theorems -/

/-- The lookup branch taken for logins containing an at-sign. -/
theorem lookupAccount_email (accounts : AccountsSource) (login : String)
    (h : login.data.contains '@' = true) :
    lookupAccount accounts login = accounts.getByEmail login := by
  unfold lookupAccount
  rw [h]
  simp

/-- The lookup branch taken for logins without an at-sign. -/
theorem lookupAccount_username (accounts : AccountsSource) (login : String)
    (h : login.data.contains '@' = false) :
    lookupAccount accounts login = accounts.getByUsername login := by
  unfold lookupAccount
  rw [h]
  simp

/-- C1: Authenticate looks the account up by email when the login contains
an at-sign and by username otherwise; an absent account propagates the
repository's not-found error, which is a user-not-found signal; a found but
inactive account yields ErrUserNotFound (never a distinct inactive error);
a found active account whose password check fails yields ErrInvalidPassword;
otherwise the full account record is returned with no error. -/
theorem authenticate_cases (db : List Account)
    (checkPw : Account → String → Bool) (login password : String) :
    (login.data.contains '@' = true →
      lookupAccount (postgresRepo db) login = GetByEmail db login) ∧
    (login.data.contains '@' = false →
      lookupAccount (postgresRepo db) login = GetByUsername db login) ∧
    (login.data.contains '@' = false → (∀ a ∈ db, a.username ≠ login) →
      Authenticate (postgresRepo db) checkPw login password
          = .error .accountNotFound
        ∧ AuthError.isNotFoundSignal .accountNotFound = true) ∧
    (login.data.contains '@' = true → (∀ a ∈ db, a.email ≠ login) →
      Authenticate (postgresRepo db) checkPw login password
        = .error .accountNotFound) ∧
    (∀ acc, lookupAccount (postgresRepo db) login = .ok acc →
      acc.active = false →
      Authenticate (postgresRepo db) checkPw login password
          = .error .userNotFound
        ∧ AuthError.isNotFoundSignal .userNotFound = true) ∧
    (∀ acc, lookupAccount (postgresRepo db) login = .ok acc →
      acc.active = true → checkPw acc password = false →
      Authenticate (postgresRepo db) checkPw login password
        = .error .invalidPassword) ∧
    (∀ acc, lookupAccount (postgresRepo db) login = .ok acc →
      acc.active = true → checkPw acc password = true →
      Authenticate (postgresRepo db) checkPw login password = .ok acc) := by
  refine ⟨?_, ?_, ?_, ?_, ?_, ?_, ?_⟩
  · intro h; exact lookupAccount_email (postgresRepo db) login h
  · intro h; exact lookupAccount_username (postgresRepo db) login h
  · intro h habs
    have hfind : db.find? (fun a => a.username == login) = none := by
      rw [List.find?_eq_none]
      intro a ha
      simp [habs a ha]
    have hl : lookupAccount (postgresRepo db) login = .error .accountNotFound := by
      rw [lookupAccount_username (postgresRepo db) login h]
      simp [postgresRepo, GetByUsername, hfind]
    refine ⟨?_, rfl⟩
    simp [Authenticate, hl]
  · intro h habs
    have hfilter : db.filter (fun a => a.email == login) = [] := by
      rw [List.filter_eq_nil_iff]
      intro a ha
      simp [habs a ha]
    have hl : lookupAccount (postgresRepo db) login = .error .accountNotFound := by
      rw [lookupAccount_email (postgresRepo db) login h]
      simp [postgresRepo, GetByEmail, hfilter]
    simp [Authenticate, hl]
  · intro acc hl ha
    refine ⟨?_, rfl⟩
    simp [Authenticate, hl, ha]
  · intro acc hl ha hp
    simp [Authenticate, hl, ha, hp]
  · intro acc hl ha hp
    simp [Authenticate, hl, ha, hp]

/-- C1 witness: the concrete scenario of spec section 8 - success by
username, not-found for an unknown username, user-not-found for the
inactive account, invalid-password for a wrong password. -/
theorem authenticate_cases_witness :
    Authenticate (postgresRepo [aliceAccount, bobAccount]) pwEq "alice" "s3cret"
        = .ok aliceAccount
      ∧ Authenticate (postgresRepo [aliceAccount, bobAccount]) pwEq "carol" "x"
        = .error .accountNotFound
      ∧ Authenticate (postgresRepo [aliceAccount, bobAccount]) pwEq "bob" "hunter2"
        = .error .userNotFound
      ∧ Authenticate (postgresRepo [aliceAccount, bobAccount]) pwEq "alice" "wrong"
        = .error .invalidPassword := by
  have h := authenticate_cases [aliceAccount, bobAccount] pwEq "alice" "s3cret"
  have h2 := authenticate_cases [aliceAccount, bobAccount] pwEq "carol" "x"
  have h3 := authenticate_cases [aliceAccount, bobAccount] pwEq "bob" "hunter2"
  have h4 := authenticate_cases [aliceAccount, bobAccount] pwEq "alice" "wrong"
  refine ⟨?_, ?_, ?_, ?_⟩
  · exact h.2.2.2.2.2.2 aliceAccount rfl rfl rfl
  · exact (h2.2.2.1 rfl (by intro a ha; fin_cases ha <;> simp [aliceAccount, bobAccount])).1
  · exact (h3.2.2.2.2.1 bobAccount rfl rfl).1
  · exact h4.2.2.2.2.2.1 aliceAccount rfl rfl rfl

/-- C7: for a login containing an at-sign, Authenticate resolves via the
email lookup, which requires exactly one matching row: zero matches yields
the repository not-found error, more than one match yields the internal
ambiguity error rather than picking an account, and exactly one match
resolves to that account. -/
theorem getByEmail_cardinality (db : List Account)
    (checkPw : Account → String → Bool) (login password : String)
    (h : login.data.contains '@' = true) :
    ((db.filter (fun a => a.email == login)).length = 0 →
      Authenticate (postgresRepo db) checkPw login password
        = .error .accountNotFound) ∧
    ((db.filter (fun a => a.email == login)).length > 1 →
      Authenticate (postgresRepo db) checkPw login password
        = .error .ambiguousEmail) ∧
    (∀ a, db.filter (fun a => a.email == login) = [a] →
      lookupAccount (postgresRepo db) login = .ok a) := by
  refine ⟨?_, ?_, ?_⟩
  · intro hlen
    have hl : lookupAccount (postgresRepo db) login = .error .accountNotFound := by
      rw [lookupAccount_email (postgresRepo db) login h]
      simp [postgresRepo, GetByEmail, hlen]
    simp [Authenticate, hl]
  · intro hlen
    have hne : ¬ (db.filter (fun a => a.email == login)).length = 0 := by omega
    have hl : lookupAccount (postgresRepo db) login = .error .ambiguousEmail := by
      rw [lookupAccount_email (postgresRepo db) login h]
      simp [postgresRepo, GetByEmail, hne, hlen]
    simp [Authenticate, hl]
  · intro a hfil
    rw [lookupAccount_email (postgresRepo db) login h]
    simp [postgresRepo, GetByEmail, hfil]

/-- C7 witness: with two accounts sharing an email, authentication by that
email yields the ambiguity error; with a unique email it resolves; with an
unknown email it is not found. -/
theorem getByEmail_cardinality_witness :
    Authenticate (postgresRepo [aliceAccount, { bobAccount with email := "alice@x.com" }])
        pwEq "alice@x.com" "s3cret" = .error .ambiguousEmail
      ∧ Authenticate (postgresRepo [aliceAccount, bobAccount]) pwEq "nobody@x.com" "x"
        = .error .accountNotFound
      ∧ lookupAccount (postgresRepo [aliceAccount, bobAccount]) "alice@x.com"
        = .ok aliceAccount := by
  have h1 := getByEmail_cardinality
    [aliceAccount, { bobAccount with email := "alice@x.com" }] pwEq
    "alice@x.com" "s3cret" (by decide)
  have h2 := getByEmail_cardinality [aliceAccount, bobAccount] pwEq
    "nobody@x.com" "x" (by decide)
  have h3 := getByEmail_cardinality [aliceAccount, bobAccount] pwEq
    "alice@x.com" "s3cret" (by decide)
  refine ⟨?_, ?_, ?_⟩
  · exact h1.2.1 (by decide)
  · exact h2.1 (by decide)
  · exact h3.2.2 aliceAccount (by decide)

/-! ## Effect-shape helper lemmas -/

/-- GetSessionInfo produces no effect, a single store read, or a store read
plus the logout compensation. -/
theorem getSessionInfo_effects_cases (store : Store) (req : Request) (ctx : Ctx) :
    (GetSessionInfo store req ctx).2.2 = noEffects ∨
    (∃ sid, (GetSessionInfo store req ctx).2.2
      = { noEffects with storeGets := [sid] }) ∨
    (∃ sid, (GetSessionInfo store req ctx).2.2
      = { LogoutUser req with storeGets := [sid] }) := by
  unfold GetSessionInfo
  split
  · exact Or.inl rfl
  · split
    · exact Or.inl rfl
    · split
      · exact Or.inr (Or.inl ⟨_, rfl⟩)
      · exact Or.inr (Or.inr ⟨_, rfl⟩)
      · exact Or.inr (Or.inl ⟨_, rfl⟩)

/-- A loader-backed cache lookup produces no effect on a hit, one repository
query on a failed load, and a query plus one cache insertion on a successful
load. -/
theorem cacheGetLoaded_effects_cases (cache : UserCache)
    (accounts : AccountsSource) (username : String) :
    (cacheGetLoaded cache accounts username).2 = noEffects ∨
    (cacheGetLoaded cache accounts username).2
      = { noEffects with accountQueries := [username] } ∨
    (∃ u, (cacheGetLoaded cache accounts username).2
      = { noEffects with accountQueries := [username],
                         cacheSets := [(username, u)] }) := by
  unfold cacheGetLoaded
  split
  · exact Or.inl rfl
  · split
    · exact Or.inr (Or.inl rfl)
    · exact Or.inr (Or.inr ⟨_, rfl⟩)

/-- The Basic-Auth branch produces at most one credential-cache insertion
and nothing else. -/
theorem basicPath_effects_cases (bcache : UserCache)
    (decode64 : String → Option String) (accounts : AccountsSource)
    (checkPw : Account → String → Bool) (auth : String) (ctx : Ctx) :
    (basicPath bcache decode64 accounts checkPw auth ctx).2.2 = noEffects ∨
    (∃ usr, (basicPath bcache decode64 accounts checkPw auth ctx).2.2
      = { noEffects with basicCacheSets := [(auth, usr)] }) := by
  unfold basicPath
  split
  · exact Or.inl rfl
  · split
    · split
      · exact Or.inl rfl
      · split <;> (try split) <;> first
          | exact Or.inl rfl
          | exact Or.inr ⟨_, rfl⟩
    · exact Or.inl rfl

/-- The cookie branch's effects are exactly those of session resolution,
possibly followed by one loader-backed identity-cache lookup. -/
theorem cookiePath_effects_shape (store : Store) (cache : UserCache)
    (accounts : AccountsSource) (req : Request) (ctx : Ctx) :
    (cookiePath store cache accounts req ctx).2.2
      = (GetSessionInfo store req ctx).2.2 ∨
    (∃ username, (cookiePath store cache accounts req ctx).2.2
      = (GetSessionInfo store req ctx).2.2.append
          (cacheGetLoaded cache accounts username).2) := by
  unfold cookiePath
  split
  · rename_i heq
    rw [heq]
    exact Or.inl rfl
  · rename_i heq
    rw [heq]
    exact Or.inl rfl
  · rename_i si ctx' eff heq
    rw [heq]
    split
    · rename_i eff2 heq2
      refine Or.inr ⟨si.Username, ?_⟩
      rw [show (cacheGetLoaded cache accounts si.Username).2 = eff2 from
        congrArg Prod.snd heq2]
    · rename_i u eff2 heq2
      refine Or.inr ⟨si.Username, ?_⟩
      rw [show (cacheGetLoaded cache accounts si.Username).2 = eff2 from
        congrArg Prod.snd heq2]

/-- The Basic-Auth branch never touches the session store, the response
cookies, or the loader-backed identity cache. -/
theorem basicPath_store_silent (bcache : UserCache)
    (decode64 : String → Option String) (accounts : AccountsSource)
    (checkPw : Account → String → Bool) (auth : String) (ctx : Ctx) :
    (basicPath bcache decode64 accounts checkPw auth ctx).2.2.storeGets = [] ∧
    (basicPath bcache decode64 accounts checkPw auth ctx).2.2.storeDels = [] ∧
    (basicPath bcache decode64 accounts checkPw auth ctx).2.2.cookiesSet = [] ∧
    (basicPath bcache decode64 accounts checkPw auth ctx).2.2.accountQueries = [] ∧
    (basicPath bcache decode64 accounts checkPw auth ctx).2.2.cacheSets = [] := by
  rcases basicPath_effects_cases bcache decode64 accounts checkPw auth ctx with
    h | ⟨usr, h⟩ <;> rw [h] <;> exact ⟨rfl, rfl, rfl, rfl, rfl⟩

/-- The cookie branch never inserts into the credential cache. -/
theorem cookiePath_no_basicCacheSets (store : Store) (cache : UserCache)
    (accounts : AccountsSource) (req : Request) (ctx : Ctx) :
    (cookiePath store cache accounts req ctx).2.2.basicCacheSets = [] := by
  have hs : (GetSessionInfo store req ctx).2.2.basicCacheSets = [] := by
    rcases getSessionInfo_effects_cases store req ctx with h | ⟨sid, h⟩ | ⟨sid, h⟩ <;>
      rw [h] <;> rfl
  rcases cookiePath_effects_shape store cache accounts req ctx with h | ⟨username, h⟩
  · rw [h, hs]
  · have hc : (cacheGetLoaded cache accounts username).2.basicCacheSets = [] := by
      rcases cacheGetLoaded_effects_cases cache accounts username with
        h2 | h2 | ⟨u, h2⟩ <;> rw [h2] <;> rfl
    rw [h]
    show (GetSessionInfo store req ctx).2.2.basicCacheSets
        ++ (cacheGetLoaded cache accounts username).2.basicCacheSets = []
    rw [hs, hc]
    rfl

/-- LogoutUser reads the request only through its cookie. -/
theorem logoutUser_cookie_congr (req req' : Request)
    (h : req'.cookie = req.cookie) : LogoutUser req' = LogoutUser req := by
  unfold LogoutUser
  rw [h]

/-- GetSessionInfo reads the request only through its cookie. -/
theorem getSessionInfo_cookie_congr (store : Store) (req req' : Request)
    (ctx : Ctx) (h : req'.cookie = req.cookie) :
    GetSessionInfo store req' ctx = GetSessionInfo store req ctx := by
  unfold GetSessionInfo
  rw [h, logoutUser_cookie_congr req req' h]

/-- The cookie branch reads the request only through its cookie. -/
theorem cookiePath_cookie_congr (store : Store) (cache : UserCache)
    (accounts : AccountsSource) (req req' : Request) (ctx : Ctx)
    (h : req'.cookie = req.cookie) :
    cookiePath store cache accounts req' ctx
      = cookiePath store cache accounts req ctx := by
  unfold cookiePath
  rw [getSessionInfo_cookie_congr store req req' ctx h]

/-- With no memoized user, a non-empty header selects the Basic-Auth
branch. -/
theorem getUser_memo_none_basic (d : AuthDeps) (req : Request) (ctx : Ctx)
    (hm : ctx.userMemo = none) (ha : req.authHeader ≠ "") :
    GetUser d req ctx
      = basicPath d.basicAuthCache d.decode64 d.accounts d.checkPassword
          req.authHeader ctx := by
  unfold GetUser
  rw [hm]
  simp [ha]

/-- With no memoized user, an empty header selects the cookie branch. -/
theorem getUser_memo_none_cookie (d : AuthDeps) (req : Request) (ctx : Ctx)
    (hm : ctx.userMemo = none) (ha : req.authHeader = "") :
    GetUser d req ctx = cookiePath d.store d.cache d.accounts req ctx := by
  unfold GetUser
  rw [hm]
  simp [ha]

/-- C2: a request with a non-empty Authorization header is resolved only
through the Basic-Auth branch - no session-store read or delete, no cookie
write, no identity-cache loader query or insertion - and its outcome is
independent of the session store and of the request cookie; a request
without the header is resolved only through the cookie/session branch - no
credential-cache insertion - and its outcome is independent of the
credential cache, the base64 decoder and the password verifier.  The two
resolution paths are mutually exclusive. -/
theorem getUser_paths_mutually_exclusive (d d' : AuthDeps) (req req' : Request)
    (ctx : Ctx) :
    (req.authHeader ≠ "" →
      ((GetUser d req ctx).2.2.storeGets = [] ∧
       (GetUser d req ctx).2.2.storeDels = [] ∧
       (GetUser d req ctx).2.2.cookiesSet = [] ∧
       (GetUser d req ctx).2.2.accountQueries = [] ∧
       (GetUser d req ctx).2.2.cacheSets = []) ∧
      (d'.basicAuthCache = d.basicAuthCache → d'.decode64 = d.decode64 →
       d'.accounts = d.accounts → d'.checkPassword = d.checkPassword →
       req'.authHeader = req.authHeader →
       GetUser d' req' ctx = GetUser d req ctx)) ∧
    (req.authHeader = "" →
      (GetUser d req ctx).2.2.basicCacheSets = [] ∧
      (d'.store = d.store → d'.cache = d.cache → d'.accounts = d.accounts →
       req'.authHeader = "" → req'.cookie = req.cookie →
       GetUser d' req' ctx = GetUser d req ctx)) := by
  constructor
  · intro ha
    constructor
    · cases hm : ctx.userMemo with
      | some u =>
        unfold GetUser
        rw [hm]
        exact ⟨rfl, rfl, rfl, rfl, rfl⟩
      | none =>
        rw [getUser_memo_none_basic d req ctx hm ha]
        exact basicPath_store_silent _ _ _ _ _ _
    · intro h1 h2 h3 h4 h5
      cases hm : ctx.userMemo with
      | some u =>
        unfold GetUser
        rw [hm]
      | none =>
        have ha' : req'.authHeader ≠ "" := by rw [h5]; exact ha
        rw [getUser_memo_none_basic d req ctx hm ha,
            getUser_memo_none_basic d' req' ctx hm ha', h1, h2, h3, h4, h5]
  · intro ha
    constructor
    · cases hm : ctx.userMemo with
      | some u =>
        unfold GetUser
        rw [hm]
        rfl
      | none =>
        rw [getUser_memo_none_cookie d req ctx hm ha]
        exact cookiePath_no_basicCacheSets _ _ _ _ _
    · intro h1 h2 h3 h4 h5
      cases hm : ctx.userMemo with
      | some u =>
        unfold GetUser
        rw [hm]
      | none =>
        rw [getUser_memo_none_cookie d req ctx hm ha,
            getUser_memo_none_cookie d' req' ctx hm h4, h1, h2, h3,
            cookiePath_cookie_congr d.store d.cache d.accounts req req' ctx h5]

/-- Concrete dependencies for witnesses: one active account, a store that
always finds a session for alice, and empty caches. -/
def wDepsA : AuthDeps where
  store := fun _ => .found "alice"
  accounts := postgresRepo [aliceAccount]
  checkPassword := pwEq
  decode64 := fun s => if s = "YWxpY2U6czNjcmV0" then some "alice:s3cret" else none
  cache := fun _ => none
  basicAuthCache := fun _ => none

/-- The same dependencies with a failing session store. -/
def wDepsB : AuthDeps := { wDepsA with store := fun _ => .failure }

/-- C2 witness: a Basic-Auth request issues no session-store reads, and its
result is unchanged when the store fails and the cookie disappears. -/
theorem getUser_paths_mutually_exclusive_witness :
    (GetUser wDepsA { authHeader := "Basic YWxpY2U6czNjcmV0", cookie := some "sid" }
        ⟨none, none⟩).2.2.storeGets = []
      ∧ GetUser wDepsB { authHeader := "Basic YWxpY2U6czNjcmV0", cookie := none }
          ⟨none, none⟩
        = GetUser wDepsA { authHeader := "Basic YWxpY2U6czNjcmV0", cookie := some "sid" }
            ⟨none, none⟩ := by
  have h := getUser_paths_mutually_exclusive wDepsA wDepsB
    { authHeader := "Basic YWxpY2U6czNjcmV0", cookie := some "sid" }
    { authHeader := "Basic YWxpY2U6czNjcmV0", cookie := none } ⟨none, none⟩
  exact ⟨(h.1 (by decide)).1.1, (h.1 (by decide)).2 rfl rfl rfl rfl rfl⟩

/-- C3: when the session cookie names an identifier the store reports as not
found/expired, GetSessionInfo performs exactly the logout compensation - the
LogoutUser store delete of that identifier and the overwriting expired
cookie - and reports no session with a nil error; an error is reported only
when the store signals a transport failure, and then it is the
infrastructure error. -/
theorem getSessionInfo_expired_clears_cookie (store : Store) (req : Request)
    (ctx : Ctx) (sid : String) (hm : ctx.sessionMemo = none)
    (hc : req.cookie = some sid) (hs : sid ≠ "") :
    (store sid = .notFound →
      GetSessionInfo store req ctx
          = ((none, none), ctx, { LogoutUser req with storeGets := [sid] })
        ∧ (LogoutUser req).storeDels = [sid]
        ∧ (LogoutUser req).cookiesSet = [logoutCookie]) ∧
    (∀ e, (GetSessionInfo store req ctx).1.2 = some e →
      store sid = .failure ∧ e = .storeError) := by
  have hg : req.cookie.getD "" = sid := by rw [hc]; rfl
  constructor
  · intro hnf
    refine ⟨?_, ?_, rfl⟩
    · unfold GetSessionInfo
      rw [hm, hg]
      simp [hs, hnf]
    · unfold LogoutUser
      rw [hc]
  · intro e he
    cases hsr : store sid with
    | found data =>
      exfalso
      have hval : GetSessionInfo store req ctx
          = ((some ⟨sid, data⟩, none),
             { ctx with sessionMemo := some ⟨sid, data⟩ },
             { noEffects with storeGets := [sid] }) := by
        unfold GetSessionInfo
        rw [hm, hg]
        simp [hs, hsr]
      rw [hval] at he
      simp at he
    | notFound =>
      exfalso
      have hval : GetSessionInfo store req ctx
          = ((none, none), ctx, { LogoutUser req with storeGets := [sid] }) := by
        unfold GetSessionInfo
        rw [hm, hg]
        simp [hs, hsr]
      rw [hval] at he
      simp at he
    | failure =>
      refine ⟨rfl, ?_⟩
      have hval : GetSessionInfo store req ctx
          = ((none, some .storeError), ctx,
             { noEffects with storeGets := [sid] }) := by
        unfold GetSessionInfo
        rw [hm, hg]
        simp [hs, hsr]
      rw [hval] at he
      simpa using he.symm

/-- A concrete cookie-bearing request for the C3 witness. -/
def req3 : Request := { authHeader := "", cookie := some "sid" }

/-- C3 witness: the concrete expired-session call returns no session, no
error, and exactly the logout compensation effects. -/
theorem getSessionInfo_expired_clears_cookie_witness :
    GetSessionInfo (fun _ => .notFound) req3 ⟨none, none⟩
      = ((none, none), ⟨none, none⟩,
         { LogoutUser req3 with storeGets := ["sid"] }) :=
  ((getSessionInfo_expired_clears_cookie (fun _ => .notFound) req3
    ⟨none, none⟩ "sid" rfl rfl (by decide)).1 rfl).1

/-- A colon-free payload is not split: SplitN with limit 2 yields the whole
string as a single element. -/
theorem splitN2_no_colon (l : List Char) (h : ':' ∉ l) : splitN2 l = [l] := by
  induction l with
  | nil => rfl
  | cons c rest ih =>
    have hc : ¬ c = ':' := by
      intro hce
      exact h (by rw [hce]; exact List.mem_cons_self _ _)
    have hr : ':' ∉ rest := fun hmem => h (List.mem_cons_of_mem c hmem)
    unfold splitN2
    rw [if_neg hc, ih hr]

/-- Dependencies with an empty database, failing decoder and empty caches,
used for concrete malformed-header scenarios. -/
def cexDeps : AuthDeps where
  store := fun _ => .notFound
  accounts := postgresRepo []
  checkPassword := pwEq
  decode64 := fun _ => none
  cache := fun _ => none
  basicAuthCache := fun _ => none

/-- C4 counterexample: a request whose Authorization header carries a
non-Basic scheme ("Bearer xyz"), missing the credential cache, does NOT
produce a decoding/malformed-input error - GetUser silently succeeds,
returning the zero-value user with a nil error, contrary to the claim. -/
theorem getUser_malformed_header_cex :
    (GetUser cexDeps { authHeader := "Bearer xyz", cookie := none }
        ⟨none, none⟩).1 = (zeroUser, none)
    ∧ cexDeps.basicAuthCache "Bearer xyz" = none := ⟨rfl, rfl⟩

/-- C4 amended: on a credential-cache miss, only a header with the Basic
scheme whose payload fails base64 decoding yields an error (the decoding
error, alongside AnonymousUser); a header that is too short or whose scheme
is not Basic, and a Basic header whose decoded payload contains no colon,
fall through with no error and resolve to the zero-value user.  The decoded
payload is split on the first colon only, so exactly-one-pair means at least
one colon. -/
theorem getUser_basic_malformed (d : AuthDeps) (req : Request) (ctx : Ctx)
    (hm : ctx.userMemo = none) (ha : req.authHeader ≠ "")
    (hc : d.basicAuthCache req.authHeader = none) :
    ((6 < req.authHeader.length ∧
        (req.authHeader.data.take 5).map Char.toLower = "basic".data) →
      d.decode64 (String.mk (req.authHeader.data.drop 6)) = none →
      (GetUser d req ctx).1 = (AnonymousUser, some .decodeError)) ∧
    (¬(6 < req.authHeader.length ∧
        (req.authHeader.data.take 5).map Char.toLower = "basic".data) →
      (GetUser d req ctx).1 = (zeroUser, none)) ∧
    (∀ payload, (6 < req.authHeader.length ∧
        (req.authHeader.data.take 5).map Char.toLower = "basic".data) →
      d.decode64 (String.mk (req.authHeader.data.drop 6)) = some payload →
      ':' ∉ payload.data →
      (GetUser d req ctx).1 = (zeroUser, none)) := by
  refine ⟨?_, ?_, ?_⟩
  · intro hsch hdec
    rw [getUser_memo_none_basic d req ctx hm ha]
    unfold basicPath
    rw [hc]
    simp [hsch, hdec]
  · intro hsch
    rw [getUser_memo_none_basic d req ctx hm ha]
    unfold basicPath
    rw [hc, if_neg hsch]
  · intro payload hsch hdec hnc
    rw [getUser_memo_none_basic d req ctx hm ha]
    unfold basicPath
    rw [hc]
    have hsplit : splitN2S payload = [payload] := by
      unfold splitN2S
      rw [splitN2_no_colon payload.data hnc]
      rfl
    simp [hsch, hdec, hsplit]

/-- C4 amended witness: a Basic header with an undecodable payload yields
the decoding error, with AnonymousUser. -/
theorem getUser_basic_malformed_witness :
    (GetUser cexDeps { authHeader := "Basic !!!", cookie := none }
        ⟨none, none⟩).1 = (AnonymousUser, some .decodeError) := by
  have h := getUser_basic_malformed cexDeps
    { authHeader := "Basic !!!", cookie := none } ⟨none, none⟩
    rfl (by decide) rfl
  exact h.1 (by decide) rfl

/-- C5 counterexample: with no Authorization header and no session cookie,
GetUser returns the auth.AnonymousUser sentinel with a nil error - and that
value has IsGuest = true, not the claimed "not authenticated, not guest"
(IsGuest = false) identity. -/
theorem getUser_anonymous_guest_cex :
    (GetUser cexDeps { authHeader := "", cookie := none } ⟨none, none⟩).1
      = (AnonymousUser, none)
    ∧ AnonymousUser.isGuest = true
    ∧ AnonymousUser.isAuthenticated = false := ⟨rfl, rfl, rfl⟩

/-- C5 amended: for requests with no Authorization header, GetUser returns
the single anonymous sentinel AnonymousUser - not authenticated but flagged
as guest - with a nil error, in all three degraded cases: no (or empty)
session cookie, a session the store reports not found/expired, and a
resolved session whose identity-cache load fails.  The code has no separate
non-guest anonymous value. -/
theorem getUser_anonymous_paths (d : AuthDeps) (req : Request) (ctx : Ctx)
    (hm : ctx.userMemo = none) (hsm : ctx.sessionMemo = none)
    (ha : req.authHeader = "") :
    (req.cookie.getD "" = "" → (GetUser d req ctx).1 = (AnonymousUser, none)) ∧
    (∀ sid, req.cookie = some sid → sid ≠ "" → d.store sid = .notFound →
      (GetUser d req ctx).1 = (AnonymousUser, none)) ∧
    (∀ sid data e, req.cookie = some sid → sid ≠ "" →
      d.store sid = .found data → d.cache data = none →
      d.accounts.getByUsername data = .error e →
      (GetUser d req ctx).1 = (AnonymousUser, none)) ∧
    (AnonymousUser.isAuthenticated = false ∧ AnonymousUser.isGuest = true) := by
  refine ⟨?_, ?_, ?_, rfl, rfl⟩
  · intro hck
    rw [getUser_memo_none_cookie d req ctx hm ha]
    have hval : GetSessionInfo d.store req ctx = ((none, none), ctx, noEffects) := by
      unfold GetSessionInfo
      rw [hsm, hck]
      simp
    unfold cookiePath
    rw [hval]
  · intro sid hck hs hst
    rw [getUser_memo_none_cookie d req ctx hm ha]
    have hg : req.cookie.getD "" = sid := by rw [hck]; rfl
    have hval : GetSessionInfo d.store req ctx
        = ((none, none), ctx, { LogoutUser req with storeGets := [sid] }) := by
      unfold GetSessionInfo
      rw [hsm, hg]
      simp [hs, hst]
    unfold cookiePath
    rw [hval]
  · intro sid data e hck hs hst hcache hrep
    rw [getUser_memo_none_cookie d req ctx hm ha]
    have hg : req.cookie.getD "" = sid := by rw [hck]; rfl
    have hval : GetSessionInfo d.store req ctx
        = ((some ⟨sid, data⟩, none),
           { ctx with sessionMemo := some ⟨sid, data⟩ },
           { noEffects with storeGets := [sid] }) := by
      unfold GetSessionInfo
      rw [hsm, hg]
      simp [hs, hst]
    have hload : cacheGetLoaded d.cache d.accounts data
        = (none, { noEffects with accountQueries := [data] }) := by
      unfold cacheGetLoaded
      rw [hcache, hrep]
    unfold cookiePath
    rw [hval]
    simp [hload]

/-- Dependencies whose session store reports every session expired. -/
def nfDeps : AuthDeps := { wDepsA with store := fun _ => .notFound }

/-- C5 amended witness: a request with an expired session cookie resolves
to AnonymousUser with a nil error. -/
theorem getUser_anonymous_paths_witness :
    (GetUser nfDeps req3 ⟨none, none⟩).1 = (AnonymousUser, none) := by
  have h := getUser_anonymous_paths nfDeps req3 ⟨none, none⟩ rfl rfl rfl
  exact h.2.1 "sid" rfl (by decide) rfl

/-- C6 counterexample: with an expired session, the first completed
GetSessionInfo call resolves to "no session", yet a second call on the
request context produced by the first queries the Durable Session Store
again - the no-session result is not memoized, contrary to the claim. -/
theorem memoization_no_session_cex :
    (GetSessionInfo (fun _ => .notFound)
        { authHeader := "", cookie := some "sid" } ⟨none, none⟩).2.2.storeGets
      = ["sid"]
    ∧ (GetSessionInfo (fun _ => .notFound)
        { authHeader := "", cookie := some "sid" }
        (GetSessionInfo (fun _ => .notFound)
          { authHeader := "", cookie := some "sid" }
          ⟨none, none⟩).2.1).2.2.storeGets = ["sid"] := ⟨rfl, rfl⟩

/-- C6 amended: per-request memoization holds only for successfully resolved
values: a memoized session descriptor or user is returned as-is with no
store, cache or account effects, and a session-store hit memoizes the
descriptor; but a call that resolves to "no session" leaves the context
unchanged (the stored nil fails the type assertion on re-read), so a
subsequent call re-runs resolution and queries the store again. -/
theorem memoization_resolved_only (store : Store) (d : AuthDeps)
    (req : Request) (ctx : Ctx) :
    (∀ si, ctx.sessionMemo = some si →
      GetSessionInfo store req ctx = ((some si, none), ctx, noEffects)) ∧
    (∀ u, ctx.userMemo = some u →
      GetUser d req ctx = ((u, none), ctx, noEffects)) ∧
    (∀ sid data, ctx.sessionMemo = none → req.cookie = some sid → sid ≠ "" →
      store sid = .found data →
      (GetSessionInfo store req ctx).2.1.sessionMemo = some ⟨sid, data⟩) ∧
    (∀ sid, ctx.sessionMemo = none → req.cookie = some sid → sid ≠ "" →
      store sid = .notFound →
      (GetSessionInfo store req ctx).2.1 = ctx ∧
      (GetSessionInfo store req
        (GetSessionInfo store req ctx).2.1).2.2.storeGets = [sid]) := by
  refine ⟨?_, ?_, ?_, ?_⟩
  · intro si hsm
    unfold GetSessionInfo
    rw [hsm]
  · intro u hum
    unfold GetUser
    rw [hum]
  · intro sid data hsm hck hs hst
    have hg : req.cookie.getD "" = sid := by rw [hck]; rfl
    have hval : GetSessionInfo store req ctx
        = ((some ⟨sid, data⟩, none),
           { ctx with sessionMemo := some ⟨sid, data⟩ },
           { noEffects with storeGets := [sid] }) := by
      unfold GetSessionInfo
      rw [hsm, hg]
      simp [hs, hst]
    rw [hval]
  · intro sid hsm hck hs hst
    have hg : req.cookie.getD "" = sid := by rw [hck]; rfl
    have hval : GetSessionInfo store req ctx
        = ((none, none), ctx, { LogoutUser req with storeGets := [sid] }) := by
      unfold GetSessionInfo
      rw [hsm, hg]
      simp [hs, hst]
    constructor
    · rw [hval]
    · rw [hval]
      show (GetSessionInfo store req ctx).2.2.storeGets = [sid]
      rw [hval]

/-- C6 amended witness: a memoized session descriptor is returned as-is
with no effects. -/
theorem memoization_resolved_only_witness :
    GetSessionInfo (fun _ => .found "alice") req3
        ⟨some ⟨"sid", "alice"⟩, none⟩
      = ((some ⟨"sid", "alice"⟩, none), ⟨some ⟨"sid", "alice"⟩, none⟩,
         noEffects) :=
  (memoization_resolved_only (fun _ => .found "alice") wDepsA req3
    ⟨some ⟨"sid", "alice"⟩, none⟩).1 ⟨"sid", "alice"⟩ rfl

/-- C9: at the HTTP login boundary the not-found (or inactive) and
wrong-password outcomes of Authenticate are indistinguishable: both login
requests produce the same 401 response with the same generic message. -/
theorem handleLogin_enumeration_safe (accounts : AccountsSource)
    (checkPw : Account → String → Bool)
    (loginUser : Account → Option AuthError)
    (getUserProfile : User → Profile) (u1 p1 u2 p2 : String)
    (hu1 : u1 ≠ "") (hp1 : p1 ≠ "") (hu2 : u2 ≠ "") (hp2 : p2 ≠ "")
    (h1 : lookupAccount accounts u1 = .error .accountNotFound ∨
      ∃ a, lookupAccount accounts u1 = .ok a ∧ a.active = false)
    (h2 : ∃ a, lookupAccount accounts u2 = .ok a ∧ a.active = true ∧
      checkPw a p2 = false) :
    handleLogin accounts checkPw loginUser getUserProfile u1 p1
      = handleLogin accounts checkPw loginUser getUserProfile u2 p2
    ∧ handleLogin accounts checkPw loginUser getUserProfile u1 p1
      = .unauthorized "Please provide valid credentials" := by
  have ha1 : ∃ e, Authenticate accounts checkPw u1 p1 = .error e := by
    rcases h1 with h | ⟨a, hl, hact⟩
    · exact ⟨.accountNotFound, by simp [Authenticate, h]⟩
    · exact ⟨.userNotFound, by simp [Authenticate, hl, hact]⟩
  have ha2 : Authenticate accounts checkPw u2 p2 = .error .invalidPassword := by
    rcases h2 with ⟨a, hl, hact, hpw⟩
    simp [Authenticate, hl, hact, hpw]
  rcases ha1 with ⟨e1, ha1⟩
  have r1 : handleLogin accounts checkPw loginUser getUserProfile u1 p1
      = .unauthorized "Please provide valid credentials" := by
    unfold handleLogin
    rw [if_neg (by simp [hu1, hp1]), ha1]
  have r2 : handleLogin accounts checkPw loginUser getUserProfile u2 p2
      = .unauthorized "Please provide valid credentials" := by
    unfold handleLogin
    rw [if_neg (by simp [hu2, hp2]), ha2]
  exact ⟨r1.trans r2.symm, r1⟩

/-- C9 witness: the 401 for an unknown username equals the 401 for a wrong
password on alice's active account. -/
theorem handleLogin_enumeration_safe_witness :
    handleLogin (postgresRepo [aliceAccount, bobAccount]) pwEq (fun _ => none)
        (fun _ => none) "carol" "x"
      = handleLogin (postgresRepo [aliceAccount, bobAccount]) pwEq
        (fun _ => none) (fun _ => none) "alice" "wrong" := by
  have h := handleLogin_enumeration_safe (postgresRepo [aliceAccount, bobAccount])
    pwEq (fun _ => none) (fun _ => none) "carol" "x" "alice" "wrong"
    (by decide) (by decide) (by decide) (by decide)
    (Or.inl rfl) ⟨aliceAccount, rfl, rfl, rfl⟩
  exact h.1

/-- A user is never simultaneously authenticated and guest. -/
def User.wellFormed (u : User) : Prop :=
  ¬(u.isAuthenticated = true ∧ u.isGuest = true)

/-- A loader-backed cache lookup yields nil, the cached value, or a
projection of an account record. -/
theorem cacheGetLoaded_result_shape (cache : UserCache)
    (accounts : AccountsSource) (username : String) :
    (cacheGetLoaded cache accounts username).1 = none ∨
    (∃ u, cache username = some u ∧
      (cacheGetLoaded cache accounts username).1 = some u) ∨
    (∃ acc, (cacheGetLoaded cache accounts username).1
      = some (AccountToUser acc)) := by
  unfold cacheGetLoaded
  split
  · rename_i u hcache
    exact Or.inr (Or.inl ⟨u, hcache, rfl⟩)
  · split
    · exact Or.inl rfl
    · exact Or.inr (Or.inr ⟨_, rfl⟩)

/-- Every user GetUser can return is the request memo, a value of one of
the two caches, a projection of an account record, the zero-value user, or
the anonymous sentinel. -/
theorem getUser_result_shape (d : AuthDeps) (req : Request) (ctx : Ctx) :
    (∃ u, ctx.userMemo = some u ∧ (GetUser d req ctx).1.1 = u) ∨
    (∃ k u, d.basicAuthCache k = some u ∧ (GetUser d req ctx).1.1 = u) ∨
    (∃ k u, d.cache k = some u ∧ (GetUser d req ctx).1.1 = u) ∨
    (∃ acc, (GetUser d req ctx).1.1 = AccountToUser acc) ∨
    (GetUser d req ctx).1.1 = zeroUser ∨
    (GetUser d req ctx).1.1 = AnonymousUser := by
  unfold GetUser
  split
  · rename_i u hm
    exact Or.inl ⟨u, hm, rfl⟩
  · rename_i hm
    split
    · unfold basicPath
      split
      · rename_i u hb
        exact Or.inr (Or.inl ⟨req.authHeader, u, hb, rfl⟩)
      · split
        · split
          · exact Or.inr (Or.inr (Or.inr (Or.inr (Or.inr rfl))))
          · split
            · split
              · exact Or.inr (Or.inr (Or.inr (Or.inr (Or.inr rfl))))
              · exact Or.inr (Or.inr (Or.inr (Or.inl ⟨_, rfl⟩)))
            · exact Or.inr (Or.inr (Or.inr (Or.inr (Or.inl rfl))))
        · exact Or.inr (Or.inr (Or.inr (Or.inr (Or.inl rfl))))
    · unfold cookiePath
      split
      · exact Or.inr (Or.inr (Or.inr (Or.inr (Or.inr rfl))))
      · exact Or.inr (Or.inr (Or.inr (Or.inr (Or.inr rfl))))
      · rename_i si ctx' eff heq
        split
        · exact Or.inr (Or.inr (Or.inr (Or.inr (Or.inr rfl))))
        · rename_i u eff2 heq2
          rcases cacheGetLoaded_result_shape d.cache d.accounts si.Username with
            h | ⟨u', hcu, h⟩ | ⟨acc, h⟩ <;> rw [heq2] at h
          · exact absurd h (by simp)
          · have : u = u' := by simpa using h
            subst this
            exact Or.inr (Or.inr (Or.inl ⟨si.Username, u, hcu, rfl⟩))
          · have : u = AccountToUser acc := by simpa using h
            subst this
            exact Or.inr (Or.inr (Or.inr (Or.inl ⟨acc, rfl⟩)))

/-- C10: projecting an account record yields a user that is authenticated,
not a guest, and carries the account's username, email, names, superuser
flag and profile unchanged; the identity-cache loader stores exactly this
projection on a miss; and, provided the request memo and both caches hold
only well-formed users, GetUser never produces a user that is both
authenticated and guest. -/
theorem accountToUser_invariant (account : Account) (d : AuthDeps)
    (req : Request) (ctx : Ctx)
    (hmem : ∀ u, ctx.userMemo = some u → User.wellFormed u)
    (hbc : ∀ k u, d.basicAuthCache k = some u → User.wellFormed u)
    (hcc : ∀ k u, d.cache k = some u → User.wellFormed u) :
    (AccountToUser account).isAuthenticated = true ∧
    (AccountToUser account).isGuest = false ∧
    (AccountToUser account).username = account.username ∧
    (AccountToUser account).email = account.email ∧
    (AccountToUser account).firstName = account.firstName ∧
    (AccountToUser account).lastName = account.lastName ∧
    (AccountToUser account).isSuperuser = account.superuser ∧
    (AccountToUser account).profile = account.profile ∧
    (∀ k acc, d.cache k = none → d.accounts.getByUsername k = .ok acc →
      (cacheGetLoaded d.cache d.accounts k).1 = some (AccountToUser acc)) ∧
    User.wellFormed (GetUser d req ctx).1.1 := by
  refine ⟨rfl, rfl, rfl, rfl, rfl, rfl, rfl, rfl, ?_, ?_⟩
  · intro k acc hk hrep
    unfold cacheGetLoaded
    rw [hk, hrep]
  · rcases getUser_result_shape d req ctx with
      ⟨u, hm2, h⟩ | ⟨k, u, hb2, h⟩ | ⟨k, u, hc2, h⟩ | ⟨acc, h⟩ | h | h
    · rw [h]; exact hmem u hm2
    · rw [h]; exact hbc k u hb2
    · rw [h]; exact hcc k u hc2
    · rw [h]
      rintro ⟨-, hG⟩
      simp [AccountToUser] at hG
    · rw [h]
      rintro ⟨hA, -⟩
      simp [zeroUser] at hA
    · rw [h]
      rintro ⟨hA, -⟩
      simp [AnonymousUser, zeroUser] at hA

/-- C10 witness: the projection flags hold for alice, and GetUser applied
to empty caches and an empty context yields a well-formed user. -/
theorem accountToUser_invariant_witness :
    (AccountToUser aliceAccount).isAuthenticated = true
    ∧ (AccountToUser aliceAccount).isGuest = false
    ∧ User.wellFormed
        (GetUser wDepsA { authHeader := "", cookie := none }
          ⟨none, none⟩).1.1 := by
  have h := accountToUser_invariant aliceAccount wDepsA
    { authHeader := "", cookie := none } ⟨none, none⟩
    (fun u hu => by simp at hu)
    (fun k u hu => by simp [wDepsA] at hu)
    (fun k u hu => by simp [wDepsA] at hu)
  exact ⟨h.1, h.2.1, h.2.2.2.2.2.2.2.2.2⟩

end Gisquick
